import Mathlib

/-!
Shallow embedding of the rag-elasticsearch-bot adapter layer: the tool
handlers, query builders and result formatters of src/server.py (web
variant, namespace Server) and src/chat.py (CLI variant, namespace Chat).
External services (the Elasticsearch client, the agent orchestrator, the
embedding store) are passed in as explicit function or Except-valued
arguments; a Python exception raised by such a call is an Except.error,
and a handler that may itself raise is Except-valued.
-/

namespace RagBot

/-- Single-quote character, used to build the user-facing messages. -/
def sq : String := String.mk [Char.ofNat 39]

/-- JSON-like request bodies handed to the Elasticsearch client. -/
inductive Json where
  | str (s : String)
  | num (q : Rat)
  | bool (b : Bool)
  | null
  | arr (elems : List Json)
  | obj (fields : List (String × Json))

/-- Lookup of a top-level key in an object body. -/
def Json.find? : Json → String → Option Json
  | .obj fields, key => fields.lookup key
  | _, _ => none

/-- A value returned by a tool handler: the Python functions return either
a bare boolean (es.ping passthrough) or a string. -/
inductive ToolReply where
  | ofBool (b : Bool)
  | ofString (s : String)
deriving DecidableEq, Repr

namespace Server

/-- Embedding of es_ping from src/server.py: the es.ping() call is the
argument; an exception from it is caught and turned into a string, so the
handler itself never raises. -/
def es_ping (ping : Except String Bool) : ToolReply :=
  match ping with
  | .ok b => .ofBool b
  | .error e => .ofString ("Error pinging Elasticsearch: " ++ e)

/-- Embedding of es_doc_count from src/server.py. envIndex is the
ELASTIC_INDEX environment variable; existsRes the es.indices.exists call;
countRes the es.count call. Any exception from either call is caught by
the single try block and reported with the generic message. -/
def es_doc_count (envIndex : Option String) (existsRes : Except String Bool)
    (countRes : Except String Nat) : String :=
  match envIndex with
  | none => "Error: ELASTIC_INDEX not set in environment."
  | some index =>
    match existsRes with
    | .error e => "Error fetching document count: " ++ e
    | .ok false => "Error: Index " ++ sq ++ index ++ sq ++ " does not exist."
    | .ok true =>
      match countRes with
      | .ok c => "Index " ++ sq ++ index ++ sq ++ " contains " ++ toString c ++ " documents."
      | .error e => "Error fetching document count: " ++ e

/-- A hit source as consumed by rag_search in src/server.py: the fields the
formatter reads, each absent field standing for the Python dict-get default
of N/A. The monetary field is numeric since the code formats it with a
comma-grouped two-decimal format. -/
structure Doc where
  productDesc : Option String
  tradingCountry : Option String
  countryName : Option String
  date : Option String
  hSCode : Option String
  customs : Option String
  registryNew : Option String
  fOBValueUSD : Option Rat
  quantity : Option String
  unit : Option String
deriving DecidableEq, Repr

/-- Comma-grouping of a digit string given in reverse order, three digits
per group, as done by the Python format spec with a comma flag. -/
def groupRev : List Char → List Char
  | a :: b :: c :: d :: rest => a :: b :: c :: ',' :: groupRev (d :: rest)
  | l => l

/-- Render a natural number with thousands separators. -/
def commaGroup (n : Nat) : String :=
  String.mk ((groupRev (toString n).data.reverse).reverse)

/-- Embedding of the Python two-decimal comma-grouped float format used for
the fOBValueUSD clause. -/
def moneyFmt (v : Rat) : String :=
  let cents : Int := round (v * 100)
  let a := cents.natAbs
  (if cents < 0 then "-" else "")
    ++ commaGroup (a / 100) ++ "."
    ++ (if a % 100 < 10 then "0" else "") ++ toString (a % 100)

/-- The conditional field clauses appended to one summary line by
rag_search in src/server.py, in source order: trade flow, date, value and
quantity, HS code, registry. -/
def ragClauses (doc : Doc) : String :=
  let tradingCountry := doc.tradingCountry.getD "N/A"
  let country := doc.countryName.getD "N/A"
  let date0 := doc.date.getD "N/A"
  let date := if date0 ≠ "N/A" ∧ date0.contains 'T' then (date0.splitOn "T").headD "" else date0
  let hsCode := doc.hSCode.getD "N/A"
  let registry := doc.registryNew.getD "N/A"
  (if tradingCountry ≠ "N/A" ∧ country ≠ "N/A" then
      " | Trade: " ++ tradingCountry ++ " ‚Üí " ++ country
    else "")
  ++ (if date ≠ "N/A" then " | Date: " ++ date else "")
  ++ (match doc.fOBValueUSD, doc.quantity, doc.unit with
      | some v, some q, some u =>
          " | Value: $" ++ moneyFmt v ++ " USD | Qty: " ++ q ++ " " ++ u
      | _, _, _ => "")
  ++ (if hsCode ≠ "N/A" then " | HS: " ++ hsCode else "")
  ++ (if registry ≠ "N/A" then " | Reg: " ++ registry else "")

/-- One numbered summary line; the running string concatenations of the
source are grouped by associativity so the numbering prefix is explicit. -/
def rag_summary (idx : Nat) (doc : Doc) : String :=
  (toString idx ++ ". ") ++ (doc.productDesc.getD "N/A" ++ ragClauses doc)

/-- The enumerated summary list built by the for loop of rag_search, with
enumeration starting at 1. -/
def ragSummaries (docs : List Doc) : List String :=
  docs.mapIdx (fun i d => rag_summary (i + 1) d)

/-- The trailing notice appended when the hit count equals the requested
page size. -/
def moreNotice (n : Nat) : String :=
  "\n\nShowing top " ++ toString n
    ++ " results. Would you like to see more documents or need specific information from any of these?"

/-- Embedding of the result formatting of rag_search in src/server.py:
sentinel on an empty hit list, otherwise the header plus the joined
numbered summaries, plus the more-notice when the count equals the
requested size. -/
def rag_format (query : String) (size : Int) (docs : List Doc) : String :=
  if docs = [] then "No relevant documents found."
  else
    let summaries := ragSummaries docs
    let result :=
      "Found " ++ toString summaries.length ++ " documents related to "
        ++ sq ++ query ++ sq ++ ":\n\n" ++ String.intercalate "\n" summaries
    if (summaries.length : Int) = size then result ++ moreNotice summaries.length
    else result

/-- Input schema of the RAG_Search tool in src/server.py; the pydantic
defaults are dates = None and size = 10. -/
structure RAGSearchInput where
  query : String
  dates : Option String
  size : Int
deriving DecidableEq, Repr

/-- The pydantic default of the size field of RAGSearchInput. -/
def defaultSize : Int := 10

/-- The static field list with per-field boost weights of the multi_match
query built by rag_search in src/server.py. -/
def ragFields : List Json :=
  [.str "productDesc^3", .str "hSDescription^2", .str "hSCode^2",
   .str "countryName", .str "tradingCountry", .str "exporterCountry",
   .str "importerCountry", .str "exporterCity", .str "importerCity",
   .str "exporterState", .str "importerState", .str "customs",
   .str "container", .str "itemNo", .str "registryNew", .str "receiptNumber"]

/-- The request body built by rag_search in src/server.py. -/
def rag_body (input : RAGSearchInput) : Json :=
  .obj
    [("query", .obj
        [("multi_match", .obj
            [("query", .str input.query),
             ("fields", .arr ragFields),
             ("fuzziness", .str "AUTO"),
             ("type", .str "best_fields"),
             ("tie_breaker", .num (3 / 10))])]),
     ("size", .num (input.size : Rat)),
     ("sort", .arr
        [.obj [("_score", .obj [("order", .str "desc")])],
         .obj [("date", .obj [("order", .str "desc")])]])]

/-- Embedding of rag_search in src/server.py: the es.search call is the
backend argument, applied to the built body; a raised exception is caught
and reported as a search-error string. -/
def rag_search (input : RAGSearchInput) (backend : Json → Except String (List Doc)) : String :=
  match backend (rag_body input) with
  | .ok docs => rag_format input.query input.size docs
  | .error e => "Search error: " ++ e

/-- Input schema of the Semantic_Search tool in src/server.py. -/
structure SemanticSearchInput where
  query : String
deriving DecidableEq, Repr

/-- The query text and fixed top-k handed to similarity_search by
semantic_search in src/server.py. -/
def semantic_request (input : SemanticSearchInput) : String × Nat :=
  (input.query, 5)

/-- Embedding of semantic_search in src/server.py: the store argument is
the similarity_search call on query text and k; results carry the page
content of each hit; exceptions are caught and reported. -/
def semantic_search (input : SemanticSearchInput)
    (store : String → Nat → Except String (List String)) : String :=
  match store (semantic_request input).1 (semantic_request input).2 with
  | .ok results =>
      if results = [] then "No matching content found in semantic index."
      else String.intercalate "\n\n" results
  | .error e => "Semantic search error: " ++ e

/-- Embedding of chat_endpoint in src/server.py: the agent.run call is the
argument; an exception from it is caught and replaced with the generic
error message, so one request always yields a response string. -/
def chat_endpoint (agent : String → Except String String) (user_input : String) : String :=
  match agent user_input with
  | .ok r => r
  | .error e => "An error occurred: " ++ e

/-- The serving behaviour of the web variant over a sequence of requests:
each request is handled independently by chat_endpoint. -/
def serve (agent : String → Except String String) (inputs : List String) : List String :=
  inputs.map (chat_endpoint agent)

end Server

namespace Chat

/-- Embedding of es_ping from src/chat.py: the bare es.ping() result is
returned with no try block, so an exception from the client propagates. -/
def es_ping (ping : Except String Bool) : Except String ToolReply :=
  ping.map .ofBool

/-- Input schema of the RAG_Search tool in src/chat.py; there is no size
parameter and the dates default is None. -/
structure RAGSearchInput where
  query : String
  dates : Option String
deriving DecidableEq, Repr

/-- The request body built by rag_search in src/chat.py: a single-field
plain match on the content field with a fixed size of 3. -/
def rag_body (input : RAGSearchInput) : Json :=
  .obj
    [("query", .obj [("match", .obj [("content", .str input.query)])]),
     ("size", .num 3)]

/-- Embedding of rag_search in src/chat.py: the es.search call is the
backend argument applied to the built body, each hit standing for its
content field; there is no try block, so a raised exception propagates,
and the contents are joined with blank lines with no empty-result check. -/
def rag_search (input : RAGSearchInput)
    (backend : Json → Except String (List String)) : Except String String :=
  (backend (rag_body input)).map (fun docs => String.intercalate "\n\n" docs)

/-- Lower-casing of a string, character by character, standing for the
Python lower call on the user input. -/
def strLower (s : String) : String :=
  String.mk (s.data.map Char.toLower)

/-- Embedding of the conversation loop of src/chat.py over a list of user
inputs: an exit word stops the loop; otherwise agent.run is called with no
try block, so a raised exception escapes the loop; on success the reply is
printed and the loop continues. The result collects the printed replies. -/
def conversation_loop (agent : String → Except String String) :
    List String → Except String (List String)
  | [] => .ok []
  | u :: rest =>
    if strLower u ∈ (["exit", "quit"] : List String) then .ok []
    else
      match agent u with
      | .error e => .error e
      | .ok r =>
        match conversation_loop agent rest with
        | .error e => .error e
        | .ok rs => .ok (r :: rs)

end Chat

/-- Conversation roles of the spec data model. -/
inductive Role where
  | user
  | assistant
deriving DecidableEq, Repr

/-- A conversation turn of the spec data model. -/
structure Turn where
  role : Role
  text : String
deriving DecidableEq, Repr

/-- The not-found sentinel of the conversation-memory lookup. -/
def notFoundSentinel : String := "not found"

/-- The texts of the turns of one role, oldest first. -/
def roleTexts (log : List Turn) (r : Role) : List String :=
  (log.filter (fun t => t.role == r)).map Turn.text

/-- Modelled from the spec: the nthMostRecent conversation-memory lookup of
section 4.4 is not implemented under src/ (only the tool registration site
is there); n is 1-indexed from the most recent turn of the given role, and
n below 1 or above the count of that role yields the sentinel, never an
error. -/
def nthMostRecent (log : List Turn) (r : Role) (n : Int) : String :=
  if n ≤ 0 then notFoundSentinel
  else (roleTexts log r).reverse.getD (n - 1).toNat notFoundSentinel

/-- Modelled from the spec: the get_user_message tool of section 6, with
parameter n defaulting to 1, looks up the nth most recent user message. -/
def get_user_message (log : List Turn) (n : Int) : String :=
  nthMostRecent log Role.user n

/-- Decomposition of the non-empty branch of rag_format: the header plus
the newline-joined numbered summaries, with no trailing notice. -/
def ragBase (query : String) (docs : List Server.Doc) : String :=
  "Found " ++ toString (Server.ragSummaries docs).length ++ " documents related to "
    ++ sq ++ query ++ sq ++ ":\n\n" ++ String.intercalate "\n" (Server.ragSummaries docs)

/-- The constant tail of the more-notice appended by rag_format. -/
def wantMoreTail : String :=
  "Would you like to see more documents or need specific information from any of these?"

/-- A minimal hit used as concrete test data. -/
def sampleDoc : Server.Doc :=
  ⟨some "Widgets", none, none, none, none, none, none, none, none, none⟩

/-- Three sample hits. -/
def sample3 : List Server.Doc := [sampleDoc, sampleDoc, sampleDoc]

/-- Ten sample hits. -/
def sample10 : List Server.Doc :=
  [sampleDoc, sampleDoc, sampleDoc, sampleDoc, sampleDoc,
   sampleDoc, sampleDoc, sampleDoc, sampleDoc, sampleDoc]

/-- The three-user-turn log of the spec example. -/
def exampleLog : List Turn :=
  [⟨Role.user, "hi"⟩, ⟨Role.user, "hello"⟩, ⟨Role.user, "how are you"⟩]

/-- Two error messages of es_doc_count with distinct constant prefixes can
never coincide: their sixth characters already differ. -/
theorem docCount_generic_ne (x y : String) :
    "Error: Index " ++ x ≠ "Error fetching document count: " ++ y := by
  intro h
  have hd : ("Error: Index " ++ x).data = ("Error fetching document count: " ++ y).data :=
    congrArg String.data h
  rw [String.data_append, String.data_append] at hd
  have h5 : ("Error: Index ".data ++ x.data)[5]? = ("Error fetching document count: ".data ++ y.data)[5]? :=
    congrArg (fun l => l[5]?) hd
  rw [List.getElem?_append_left (by decide), List.getElem?_append_left (by decide)] at h5
  exact absurd h5 (by decide)

/-- The formatter on a non-empty hit list is the base text plus the
more-notice exactly when the summary count equals the requested size. -/
theorem rag_format_eq (query : String) (size : Int) (docs : List Server.Doc)
    (h : docs ≠ []) :
    Server.rag_format query size docs =
      ragBase query docs ++
        (if ((Server.ragSummaries docs).length : Int) = size then
          Server.moreNotice (Server.ragSummaries docs).length
        else "") := by
  simp only [Server.rag_format]
  rw [if_neg h]
  by_cases hc : ((Server.ragSummaries docs).length : Int) = size
  · rw [if_pos hc, if_pos hc]
    rfl
  · rw [if_neg hc, if_neg hc, String.append_empty]
    rfl

/-- C1: the claim that the connectivity check returns an error-describing
string rather than raising in both variants fails for the CLI variant: its
es_ping has no handler, so a client exception propagates unchanged. -/
theorem c1_counterexample :
    Chat.es_ping (Except.error "connection refused") = Except.error "connection refused"
    ∧ Chat.es_ping (Except.error "connection refused")
        ≠ Except.ok (ToolReply.ofString ("Error pinging Elasticsearch: " ++ "connection refused")) :=
  ⟨rfl, fun h => Except.noConfusion h⟩

/-- C1 (amended): in the web variant es_ping converts a client exception
into a string beginning with the Error-pinging prefix and never raises; in
the CLI variant es_ping returns the bare ping result and a client
exception propagates. -/
theorem c1_amended :
    (∀ e, Server.es_ping (Except.error e)
        = ToolReply.ofString ("Error pinging" ++ (" Elasticsearch: " ++ e)))
    ∧ (∀ b, Server.es_ping (Except.ok b) = ToolReply.ofBool b)
    ∧ (∀ e, Chat.es_ping (Except.error e) = Except.error e)
    ∧ (∀ b, Chat.es_ping (Except.ok b) = Except.ok (ToolReply.ofBool b)) := by
  refine ⟨fun e => ?_, fun b => rfl, fun e => rfl, fun b => rfl⟩
  show ToolReply.ofString ("Error pinging Elasticsearch: " ++ e) = _
  rw [show "Error pinging Elasticsearch: " = "Error pinging" ++ " Elasticsearch: " from rfl,
    String.append_assoc]

/-- C2: the claim that an orchestration fault is caught in both variants
and the serving loop never crashes fails for the CLI variant: agent.run is
called with no handler, so a fault escapes the loop and the second queued
turn is never served. -/
theorem c2_counterexample :
    Chat.conversation_loop (fun _ => Except.error "boom") ["hi", "hi again"]
      = Except.error "boom" := rfl

/-- C2 (amended): the web variant catches any orchestration fault and
answers with the generic error message, and every request of a sequence is
answered independently; the CLI variant calls the agent with no handler,
so a fault on a non-exit turn escapes the conversation loop. -/
theorem c2_amended :
    (∀ agent u e, agent u = Except.error e →
        Server.chat_endpoint agent u = "An error occurred: " ++ e)
    ∧ (∀ agent inputs, (Server.serve agent inputs).length = inputs.length)
    ∧ (∀ agent u us e, Chat.strLower u ∉ (["exit", "quit"] : List String) →
        agent u = Except.error e →
        Chat.conversation_loop agent (u :: us) = Except.error e) := by
  refine ⟨fun agent u e h => ?_, fun agent inputs => by simp [Server.serve],
    fun agent u us e hm he => ?_⟩
  · simp [Server.chat_endpoint, h]
  · simp only [Chat.conversation_loop]
    rw [if_neg hm, he]

/-- Witness for C2 (amended) at a concrete agent fault and turn. -/
theorem c2_witness :
    Server.chat_endpoint (fun _ => Except.error "boom") "hi" = "An error occurred: " ++ "boom"
    ∧ Chat.conversation_loop (fun _ => Except.error "boom") ["hi"] = Except.error "boom" :=
  ⟨c2_amended.1 (fun _ => Except.error "boom") "hi" "boom" rfl,
   c2_amended.2.2 (fun _ => Except.error "boom") "hi" [] "boom" (by decide) rfl⟩

/-- C3: the claim that an empty hit sequence yields a fixed non-empty
sentinel in both variants fails for the CLI variant: its rag_search joins
the contents with no empty check, so zero hits format as the empty
string. -/
theorem c3_counterexample :
    Chat.rag_search ⟨"widgets", none⟩ (fun _ => Except.ok []) = Except.ok "" := rfl

/-- C3 (amended): in the web variant an empty hit sequence yields the
fixed non-empty sentinel of the keyword or the semantic formatter; in the
CLI variant it yields the empty string. -/
theorem c3_amended :
    (∀ inp backend, backend (Server.rag_body inp) = Except.ok [] →
        Server.rag_search inp backend = "No relevant documents found.")
    ∧ (∀ inp store, store inp.query 5 = Except.ok [] →
        Server.semantic_search inp store = "No matching content found in semantic index.")
    ∧ ("No relevant documents found." ≠ "" ∧ "No matching content found in semantic index." ≠ "")
    ∧ (∀ inp backend, backend (Chat.rag_body inp) = Except.ok [] →
        Chat.rag_search inp backend = Except.ok "") := by
  refine ⟨fun inp backend h => ?_, fun inp store h => ?_, ⟨by decide, by decide⟩,
    fun inp backend h => ?_⟩
  · unfold Server.rag_search
    rw [h]
    rfl
  · unfold Server.semantic_search
    rw [show (Server.semantic_request inp).1 = inp.query from rfl,
      show (Server.semantic_request inp).2 = 5 from rfl, h]
    rfl
  · unfold Chat.rag_search
    rw [h]
    rfl

/-- Witness for C3 (amended) at concrete inputs and empty backends. -/
theorem c3_witness :
    Server.rag_search ⟨"widgets", none, 10⟩ (fun _ => Except.ok []) = "No relevant documents found."
    ∧ Server.semantic_search ⟨"widgets"⟩ (fun _ _ => Except.ok [])
        = "No matching content found in semantic index."
    ∧ Chat.rag_search ⟨"widgets", none⟩ (fun _ => Except.ok []) = Except.ok "" :=
  ⟨c3_amended.1 ⟨"widgets", none, 10⟩ (fun _ => Except.ok []) rfl,
   c3_amended.2.1 ⟨"widgets"⟩ (fun _ _ => Except.ok []) rfl,
   c3_amended.2.2.2 ⟨"widgets", none⟩ (fun _ => Except.ok []) rfl⟩

/-- C4: the claim that both variants build the multi-field fuzzy sorted
request fails for the CLI variant: its body has no sort clause and its
query clause is a plain single-field match on the content field. -/
theorem c4_counterexample :
    (Chat.rag_body ⟨"widgets", none⟩).find? "sort" = none
    ∧ (Chat.rag_body ⟨"widgets", none⟩).find? "query"
        = some (.obj [("match", .obj [("content", .str "widgets")])]) :=
  ⟨rfl, rfl⟩

/-- C4 (amended): for every query, dates and size, the web variant builds
a multi_match over the static boosted field list with fuzziness AUTO, type
best_fields and tie_breaker 0.3, the requested size, and sort by score
descending then date descending; the CLI variant builds a plain
single-field match on the content field. -/
theorem c4_amended : ∀ q d s,
    (Server.rag_body ⟨q, d, s⟩).find? "query"
        = some (.obj [("multi_match", .obj
            [("query", .str q),
             ("fields", .arr Server.ragFields),
             ("fuzziness", .str "AUTO"),
             ("type", .str "best_fields"),
             ("tie_breaker", .num (3 / 10))])])
    ∧ (Server.rag_body ⟨q, d, s⟩).find? "size" = some (.num (s : Rat))
    ∧ (Server.rag_body ⟨q, d, s⟩).find? "sort"
        = some (.arr [.obj [("_score", .obj [("order", .str "desc")])],
                      .obj [("date", .obj [("order", .str "desc")])]])
    ∧ (Chat.rag_body ⟨q, d⟩).find? "query"
        = some (.obj [("match", .obj [("content", .str q)])]) :=
  fun _ _ _ => ⟨rfl, rfl, rfl, rfl⟩

set_option maxRecDepth 100000

/-- C5: on a non-empty hit list the keyword formatter output is the base
text plus the more-notice exactly when the summary count, which equals the
hit count, equals the requested size; concretely three hits under size 10
do not end with the notice tail and ten hits under size 10 do. -/
theorem c5_more_notice :
    (∀ q (s : Int) docs, docs ≠ [] →
        Server.rag_format q s docs =
          ragBase q docs ++
            (if ((Server.ragSummaries docs).length : Int) = s then
              Server.moreNotice (Server.ragSummaries docs).length
            else ""))
    ∧ (∀ docs, (Server.ragSummaries docs).length = docs.length)
    ∧ List.isSuffixOf wantMoreTail.data (Server.rag_format "widgets" 10 sample3).data = false
    ∧ List.isSuffixOf wantMoreTail.data (Server.rag_format "widgets" 10 sample10).data = true := by
  refine ⟨fun q s docs h => rag_format_eq q s docs h, fun docs => ?_, by decide, by decide⟩
  simp [Server.ragSummaries, List.length_mapIdx]

/-- Witness for C5 at a three-hit list under a size of 99: no notice. -/
theorem c5_witness :
    Server.rag_format "x" 99 sample3 =
      ragBase "x" sample3 ++
        (if ((Server.ragSummaries sample3).length : Int) = 99 then
          Server.moreNotice (Server.ragSummaries sample3).length
        else "") :=
  c5_more_notice.1 "x" 99 sample3 (by decide)

/-- C6: when the hit count is at most the requested size, the summary list
the formatter joins has exactly min(resultCount, requestedSize) entries,
and the entry at position i carries number i plus one, so the entry
numbers strictly increase from 1. -/
theorem c6_numbering (docs : List Server.Doc) (size : Int)
    (h : (docs.length : Int) ≤ size) :
    ((Server.ragSummaries docs).length : Int) = min (docs.length : Int) size
    ∧ ∀ i (hi : i < (Server.ragSummaries docs).length), ∃ rest,
        (Server.ragSummaries docs).get ⟨i, hi⟩ = (toString (i + 1) ++ ". ") ++ rest := by
  constructor
  · rw [show (Server.ragSummaries docs).length = docs.length from by
      simp [Server.ragSummaries, List.length_mapIdx]]
    exact (min_eq_left h).symm
  · intro i hi
    have hlen : i < docs.length := by
      simpa [Server.ragSummaries, List.length_mapIdx] using hi
    refine ⟨(docs.get ⟨i, hlen⟩).productDesc.getD "N/A"
      ++ Server.ragClauses (docs.get ⟨i, hlen⟩), ?_⟩
    show (docs.mapIdx (fun i d => Server.rag_summary (i + 1) d)).get ⟨i, hi⟩ = _
    rw [List.get_eq_getElem, List.getElem_mapIdx]
    rfl

/-- Witness for C6 at the three-hit list under a size of 10. -/
theorem c6_witness :
    ((Server.ragSummaries sample3).length : Int) = min ((sample3.length : Nat) : Int) 10 :=
  (c6_numbering sample3 10 (by decide)).1

/-- C7: the claim that no constructed request carries an unbounded size
for every caller-supplied size argument fails: the web keyword builder
passes the caller size through unclamped, here one million, far above the
observed 3 to 10 default range. -/
theorem c7_counterexample :
    (Server.rag_body ⟨"q", none, 1000000⟩).find? "size" = some (.num 1000000)
    ∧ ¬ ((1000000 : Rat) ≤ 10) :=
  ⟨rfl, by norm_num⟩

/-- C7 (amended): the builder defaults are bounded between 3 and 10 (CLI
keyword fixed 3, web keyword default 10, semantic top-k fixed 5), but the
web keyword builder passes any caller-supplied size argument through
unmodified. -/
theorem c7_amended :
    (∀ q d, (Chat.rag_body ⟨q, d⟩).find? "size" = some (.num 3))
    ∧ (∀ q d, (Server.rag_body ⟨q, d, Server.defaultSize⟩).find? "size" = some (.num 10))
    ∧ (∀ inp, (Server.semantic_request inp).2 = 5)
    ∧ (∀ q d (s : Int), (Server.rag_body ⟨q, d, s⟩).find? "size" = some (.num (s : Rat))) :=
  ⟨fun _ _ => rfl, fun _ _ => rfl, fun _ => rfl, fun _ _ _ => rfl⟩

/-- C8: the document-count tool reports a missing index with its own
message, a client exception with the generic fetching message, success
with the document count of the index, and the two failure messages can
never coincide. -/
theorem c8_doc_count :
    (∀ index cnt, Server.es_doc_count (some index) (.ok false) cnt
        = "Error: Index " ++ (sq ++ (index ++ (sq ++ " does not exist."))))
    ∧ (∀ index e cnt, Server.es_doc_count (some index) (.error e) cnt
        = "Error fetching document count: " ++ e)
    ∧ (∀ index e, Server.es_doc_count (some index) (.ok true) (.error e)
        = "Error fetching document count: " ++ e)
    ∧ (∀ index c, Server.es_doc_count (some index) (.ok true) (.ok c)
        = "Index " ++ sq ++ index ++ sq ++ " contains " ++ toString c ++ " documents.")
    ∧ (∀ index e, "Error: Index " ++ (sq ++ (index ++ (sq ++ " does not exist.")))
        ≠ "Error fetching document count: " ++ e) := by
  refine ⟨fun index cnt => ?_, fun _ _ _ => rfl, fun _ _ => rfl, fun _ _ => rfl,
    fun index e => docCount_generic_ne (sq ++ (index ++ (sq ++ " does not exist."))) e⟩
  show "Error: Index " ++ sq ++ index ++ sq ++ " does not exist." = _
  rw [String.append_assoc, String.append_assoc, String.append_assoc]

/-- C9: modelled from the spec, get_user_message yields the sentinel for n
below 1 or beyond the user-turn count and never an error, and otherwise
the nth most recent user text, which is the user text at forward position
count minus n; after the example turns hi, hello, how are you, the second
most recent user message is hello. -/
theorem c9_get_user_message :
    (∀ log n, n ≤ 0 → get_user_message log n = notFoundSentinel)
    ∧ (∀ log (n : Int), ((roleTexts log Role.user).length : Int) < n →
        get_user_message log n = notFoundSentinel)
    ∧ (∀ log (n : Int), 1 ≤ n → n ≤ ((roleTexts log Role.user).length : Int) →
        ∃ h : (roleTexts log Role.user).length - n.toNat < (roleTexts log Role.user).length,
          get_user_message log n
            = (roleTexts log Role.user).get
                ⟨(roleTexts log Role.user).length - n.toNat, h⟩)
    ∧ get_user_message exampleLog 2 = "hello" := by
  refine ⟨fun log n h => ?_, fun log n h => ?_, fun log n h1 h2 => ?_, by decide⟩
  · unfold get_user_message nthMostRecent
    rw [if_pos h]
  · unfold get_user_message nthMostRecent
    by_cases h0 : n ≤ 0
    · rw [if_pos h0]
    · rw [if_neg h0, List.getD_eq_getElem?_getD,
        List.getElem?_eq_none (by rw [List.length_reverse]; omega), Option.getD_none]
  · have hn : (n - 1).toNat < (roleTexts log Role.user).reverse.length := by
      rw [List.length_reverse]; omega
    refine ⟨by omega, ?_⟩
    unfold get_user_message nthMostRecent
    have hidx : (roleTexts log Role.user).length - 1 - (n - 1).toNat
        = (roleTexts log Role.user).length - n.toNat := by omega
    rw [if_neg (by omega), List.getD_eq_getElem?_getD, List.getElem?_eq_getElem hn,
      Option.getD_some, List.getElem_reverse, List.get_eq_getElem]
    simp only [hidx]

/-- Witness for C9 at the example log and out-of-range arguments. -/
theorem c9_witness :
    get_user_message exampleLog 0 = notFoundSentinel
    ∧ get_user_message exampleLog 4 = notFoundSentinel :=
  ⟨c9_get_user_message.1 exampleLog 0 (by decide),
   c9_get_user_message.2.1 exampleLog 4 (by decide)⟩

/-- C10: the dates argument of RAG_Search is never read: with the same
query and size, any two dates values give the same request body and the
same result for the same backend, in both the web and the CLI variant. -/
theorem c10_dates_unused : ∀ q (s : Int) d1 d2,
    Server.rag_body ⟨q, d1, s⟩ = Server.rag_body ⟨q, d2, s⟩
    ∧ (∀ backend, Server.rag_search ⟨q, d1, s⟩ backend = Server.rag_search ⟨q, d2, s⟩ backend)
    ∧ Chat.rag_body ⟨q, d1⟩ = Chat.rag_body ⟨q, d2⟩
    ∧ (∀ backend, Chat.rag_search ⟨q, d1⟩ backend = Chat.rag_search ⟨q, d2⟩ backend) :=
  fun _ _ _ _ => ⟨rfl, fun _ => rfl, rfl, fun _ => rfl⟩

end RagBot
